import Mathlib

/-!
# Verification of the x-api-service session-resolution core

Shallow embedding of the repository's `TwitterClient` (session resolution
cascade, session store, TTL cache) and `TwitterHelper` (business operations)
into Lean 4, together with theorems settling the frozen claims.

External collaborators (the platform client `Scraper`, the MongoDB driver,
`JSON.parse`) are modelled as oracles supplied in an environment record:
each fallible external call is a field of type `Except ErrMsg _` (or an
error flag), so that an exception thrown by the collaborator is an explicit
`.error` value and the source's `try`/`catch` structure is transcribed as
pattern matching on those values.  Machine integers are `Nat` (JavaScript
`Date.now()` timestamps and millisecond durations are non-negative in every
scenario considered; `now - timestamp` uses truncated subtraction, which
agrees with the source's `>` comparison whenever the stored timestamp is
not in the future, and both sides treat a future timestamp as fresh).
-/

namespace XApi

/-- Substring search on character lists: does `pat` occur inside `s`?
Structural recursion on `s`, so it evaluates inside the kernel. -/
def charListIncludes : List Char → List Char → Bool
  | [], pat => pat.isEmpty
  | c :: rest, pat => pat.isPrefixOf (c :: rest) || charListIncludes rest pat

/-- JavaScript `String.prototype.includes`: `s` contains `pat` as a
substring (the empty pattern is contained in every string, as in JS). -/
def strIncludes (s pat : String) : Bool :=
  charListIncludes s.data pat.data

/-- A credential cookie, with the fields read by `setCookiesOnClient`.
`domain` is the raw domain string (`""` models an absent/falsy domain);
`sameSite` is `none` when the cookie carries no SameSite attribute. -/
structure Cookie where
  key : String
  value : String
  domain : String
  path : String
  secure : Bool
  httpOnly : Bool
  sameSite : Option String
deriving Repr, DecidableEq

/-- The domain actually written into the cookie string by
`setCookiesOnClient`: any truthy domain containing `"x.com"` is rewritten
to `".twitter.com"`; every other domain is passed through unchanged. -/
def normalizedDomain (c : Cookie) : String :=
  if c.domain != "" && strIncludes c.domain "x.com" then ".twitter.com"
  else c.domain

/-- The cookie string template of `setCookiesOnClient`, as a function of
the domain actually used. -/
def cookieStringOfDomain (c : Cookie) (domain : String) : String :=
  c.key ++ "=" ++ c.value ++ "; Domain=" ++ domain ++ "; Path=" ++ c.path ++
  (if c.secure then "; Secure" else "") ++
  (if c.httpOnly then "; HttpOnly" else "") ++
  "; SameSite=" ++ c.sameSite.getD "Lax"

/-- The cookie string submitted to the platform client for one cookie. -/
def cookieString (c : Cookie) : String :=
  cookieStringOfDomain c (normalizedDomain c)

/-- `TwitterClient.setCookiesOnClient`: the list of cookie strings
submitted to `client.setCookies`. -/
def setCookiesOnClient (jar : List Cookie) : List String :=
  jar.map cookieString

/-- The domain rewrite of `setCookiesOnClient` lifted to a cookie value
(used to state idempotence of the normalization). -/
def rewriteCookie (c : Cookie) : Cookie :=
  { c with domain := normalizedDomain c }

/-! ## Session resolution cascade (`TwitterClient`) -/

/-- The result of `JSON.parse` applied to an error message, as far as the
error-extraction code in `getClient` inspects it: the message is not valid
JSON, or it parses but has no (or an absent) `errors` array, or it parses
to an object whose `errors` array carries the listed `message` fields. -/
inductive ParseShape where
  | notJson
  | jsonNoErrors
  | jsonWithErrors (msgs : List String)
deriving Repr, DecidableEq

/-- An exception thrown by a collaborator: its `.message` text together
with the (deterministic) outcome of `JSON.parse` on that text. -/
structure ErrMsg where
  text : String
  parsed : ParseShape
deriving Repr, DecidableEq

/-- A session record in the `cookies` collection (the Session Store):
the cookie jar plus the `updatedAt` timestamp written by `saveCookies`. -/
structure SessionRecord where
  cookies : List Cookie
  updatedAt : Nat
deriving Repr, DecidableEq

/-- The mutable state touched by `getClient`: the static `instances`
registry (identity → handle id), the static in-memory `cookies` map, the
Session Store (`cookies` collection keyed by `_id = username`), and the
counter supplying the identity of the next `new Scraper()`. -/
structure ClientState where
  instances : List (String × Nat)
  cookiesMem : List (String × List Cookie)
  mongoStore : List (String × SessionRecord)
  nextId : Nat
deriving Repr, DecidableEq

/-- Upsert-by-primary-key on an association list (MongoDB
`updateOne … {upsert: true}` / JS map assignment). -/
def upsert {β : Type} (k : String) (v : β) (l : List (String × β)) :
    List (String × β) :=
  (k, v) :: l.filter (fun p => p.1 != k)

/-- Oracle for the external collaborators of one `getClient` call.
Each fallible call is a value (`.error e` models a thrown exception):
`probeInstance` is `isLoggedIn` on the registered instance;
`applyCookies`/`probeCookies` are `setCookies`/`isLoggedIn` on the freshly
constructed scraper, as functions of the cookie strings last applied;
`mongoConnect` is the MongoDB connect; `mongoFindErr`/`mongoWriteErr`,
when `some`, make `findOne`/`updateOne` throw; `loginResult`,
`probeAfterLogin` and `getCookiesResult` are `client.login`,
`client.isLoggedIn` and `client.getCookies` on the fresh-login path;
`now` is `Date.now()` (the `new Date()` written by `saveCookies`). -/
structure Env where
  probeInstance : Except ErrMsg Bool
  applyCookies : List String → Except ErrMsg Unit
  probeCookies : List String → Except ErrMsg Bool
  mongoConnect : Except ErrMsg Unit
  mongoFindErr : Option ErrMsg
  mongoWriteErr : Option ErrMsg
  loginResult : Except ErrMsg Unit
  probeAfterLogin : Except ErrMsg Bool
  getCookiesResult : Except ErrMsg (List Cookie)
  now : Nat

/-- The credentials object passed to `getClient`. -/
structure Credentials where
  username : String
  password : String
  email : Option String
  twoFactorSecret : Option String
  cookies : Option (List Cookie)

/-- `TwitterClient.tryExistingClient`: true iff a handle is registered for
the identity and its login probe returns true; a thrown probe is caught
and yields false. -/
def tryExistingClient (env : Env) (st : ClientState) (username : String) :
    Bool :=
  match st.instances.lookup username with
  | none => false
  | some _ =>
    match env.probeInstance with
    | .ok b => b
    | .error _ => false

/-- `TwitterClient.saveCookies`: connect to MongoDB and upsert the jar
with a fresh `updatedAt`; a connect or write failure is rethrown. -/
def saveCookies (env : Env) (st : ClientState) (username : String)
    (jar : List Cookie) : Except ErrMsg ClientState :=
  match env.mongoConnect with
  | .error e => .error e
  | .ok _ =>
    match env.mongoWriteErr with
    | some e => .error e
    | none =>
      .ok { st with mongoStore := upsert username ⟨jar, env.now⟩ st.mongoStore }

/-- `TwitterClient.tryPassedCookies`: apply the caller's jar, probe; on a
passing probe, persist to the Session Store and cache in memory.  Any
thrown step (including the Session Store write) is caught and the tier
reports false with the state unchanged. -/
def tryPassedCookies (env : Env) (st : ClientState) (username : String)
    (jar : List Cookie) : Bool × ClientState :=
  match env.applyCookies (setCookiesOnClient jar) with
  | .error _ => (false, st)
  | .ok _ =>
    match env.probeCookies (setCookiesOnClient jar) with
    | .error _ => (false, st)
    | .ok false => (false, st)
    | .ok true =>
      match saveCookies env st username jar with
      | .error _ => (false, st)
      | .ok st' =>
        (true, { st' with cookiesMem := upsert username jar st'.cookiesMem })

/-- `TwitterClient.tryInMemoryCookies`: apply the in-memory jar for the
identity, probe; no store write on success; thrown steps caught. -/
def tryInMemoryCookies (env : Env) (st : ClientState) (username : String) :
    Bool :=
  match st.cookiesMem.lookup username with
  | none => false
  | some jar =>
    match env.applyCookies (setCookiesOnClient jar) with
    | .error _ => false
    | .ok _ =>
      match env.probeCookies (setCookiesOnClient jar) with
      | .ok true => true
      | .ok false => false
      | .error _ => false

/-- `TwitterClient.tryMongoCookies`: read the session record, apply its
jar, probe; on success mirror the jar into the in-memory cache (no store
write); thrown steps caught. -/
def tryMongoCookies (env : Env) (st : ClientState) (username : String) :
    Bool × ClientState :=
  match env.mongoConnect with
  | .error _ => (false, st)
  | .ok _ =>
    match env.mongoFindErr with
    | some _ => (false, st)
    | none =>
      match st.mongoStore.lookup username with
      | none => (false, st)
      | some record =>
        match env.applyCookies (setCookiesOnClient record.cookies) with
        | .error _ => (false, st)
        | .ok _ =>
          match env.probeCookies (setCookiesOnClient record.cookies) with
          | .ok true =>
            (true,
             { st with cookiesMem := upsert username record.cookies st.cookiesMem })
          | .ok false => (false, st)
          | .error _ => (false, st)

/-- `TwitterClient.tryFreshLogin`: full login handshake, probe, capture
cookies, persist and cache.  Unlike tiers 1–4, its `catch` rethrows, so
every thrown step (login, probe, `getCookies`, the store write) surfaces
as `.error`. -/
def tryFreshLogin (env : Env) (st : ClientState) (username : String) :
    Except ErrMsg (Bool × ClientState) :=
  match env.loginResult with
  | .error e => .error e
  | .ok _ =>
    match env.probeAfterLogin with
    | .error e => .error e
    | .ok false => .ok (false, st)
    | .ok true =>
      match env.getCookiesResult with
      | .error e => .error e
      | .ok newCookies =>
        match saveCookies env st username newCookies with
        | .error e => .error e
        | .ok st' =>
          .ok (true, { st' with cookiesMem := upsert username newCookies st'.cookiesMem })

/-- The error-message extraction of `getClient`: a message that parses to
a JSON object with a non-empty `errors` list yields the first nested
message; otherwise the raw text is used. -/
def extractErrorMessage (e : ErrMsg) : String :=
  match e.parsed with
  | .jsonWithErrors (m :: _) => m
  | .jsonWithErrors [] => e.text
  | .jsonNoErrors => e.text
  | .notJson => e.text

/-- The final failure reason: `'All authentication methods failed'` when
no login error was captured (or its message is falsy), else the extracted
message. -/
def authFailureMessage (lastError : Option ErrMsg) : String :=
  match lastError with
  | none => "All authentication methods failed"
  | some e => if e.text == "" then "All authentication methods failed"
              else extractErrorMessage e

/-- `TwitterClient.saveClientAndReturn`: register the handle. -/
def saveClientAndReturn (st : ClientState) (username : String)
    (clientId : Nat) : ClientState :=
  { st with instances := upsert username clientId st.instances }

deriving instance DecidableEq for Except

/-- Observable outcome of one `getClient` call: the returned handle id or
the thrown message, the final state, whether `client.login` was invoked,
and how many `new Scraper()` contexts were constructed. -/
structure ResolveResult where
  result : Except String Nat
  state : ClientState
  loginInvoked : Bool
  scrapersCreated : Nat
deriving Repr, DecidableEq

/-- `TwitterClient.getClient`: the five-tier resolution cascade. -/
def getClient (env : Env) (st : ClientState) (creds : Credentials) :
    ResolveResult :=
  if tryExistingClient env st creds.username then
    { result := .ok ((st.instances.lookup creds.username).getD 0)
      state := st, loginInvoked := false, scrapersCreated := 0 }
  else
    let clientId := st.nextId
    let st0 : ClientState := { st with nextId := st.nextId + 1 }
    let passed :=
      match creds.cookies with
      | some jar => tryPassedCookies env st0 creds.username jar
      | none => (false, st0)
    if passed.1 then
      { result := .ok clientId
        state := saveClientAndReturn passed.2 creds.username clientId
        loginInvoked := false, scrapersCreated := 1 }
    else if tryInMemoryCookies env passed.2 creds.username then
      { result := .ok clientId
        state := saveClientAndReturn passed.2 creds.username clientId
        loginInvoked := false, scrapersCreated := 1 }
    else
      let mongo := tryMongoCookies env passed.2 creds.username
      if mongo.1 then
        { result := .ok clientId
          state := saveClientAndReturn mongo.2 creds.username clientId
          loginInvoked := false, scrapersCreated := 1 }
      else
        match tryFreshLogin env mongo.2 creds.username with
        | .ok (true, st') =>
          { result := .ok clientId
            state := saveClientAndReturn st' creds.username clientId
            loginInvoked := true, scrapersCreated := 1 }
        | .ok (false, st') =>
          { result := .error ("Failed to authenticate: " ++ authFailureMessage none)
            state := st', loginInvoked := true, scrapersCreated := 1 }
        | .error e =>
          { result := .error ("Failed to authenticate: " ++ authFailureMessage (some e))
            state := mongo.2, loginInvoked := true, scrapersCreated := 1 }

/-! ## Generic TTL cache layer (`twitter_cache` collection) -/

/-- A record of the `twitter_cache` collection: opaque payload, write
timestamp, and the derived expiry also written by `setCachedData`. -/
structure CacheEntry (α : Type) where
  data : α
  timestamp : Nat
  expiresAt : Nat
deriving Repr, DecidableEq

/-- A cache store: association list keyed by the composite primary key
`type ++ "_" ++ key`. -/
def CacheStore (α : Type) : Type := List (String × CacheEntry α)

instance {α : Type} [DecidableEq α] : DecidableEq (CacheStore α) :=
  inferInstanceAs (DecidableEq (List (String × CacheEntry α)))

/-- Oracle for one cache operation: the MongoDB connect outcome, flags
making `findOne`/`updateOne` throw, and `Date.now()`. -/
structure CacheEnv where
  connect : Except String Unit
  findErr : Option String
  writeErr : Option String
  now : Nat

/-- The default cache duration of `getCachedData`/`setCachedData`:
12 hours in milliseconds. -/
def DEFAULT_CACHE_MS : Nat := 43200000

/-- `TwitterClient.getCachedData`: read the record under the composite
key; absent record, a record older than `cacheDurationMs`, or any thrown
step yields `null`.  The store is returned alongside to make explicit
that the read never mutates it (the source issues only `findOne`). -/
def getCachedData {α : Type} (env : CacheEnv) (store : CacheStore α)
    (key type : String) (cacheDurationMs : Nat) : Option α × CacheStore α :=
  match env.connect with
  | .error _ => (none, store)
  | .ok _ =>
    match env.findErr with
    | some _ => (none, store)
    | none =>
      match List.lookup (type ++ "_" ++ key) store with
      | none => (none, store)
      | some entry =>
        if env.now - entry.timestamp > cacheDurationMs then (none, store)
        else (some entry.data, store)

/-- `TwitterClient.setCachedData`: upsert the record under the composite
key with the current timestamp and derived expiry; a thrown step is
caught (not rethrown) and leaves the store unchanged. -/
def setCachedData {α : Type} (env : CacheEnv) (store : CacheStore α)
    (key type : String) (data : α) (cacheDurationMs : Nat) : CacheStore α :=
  match env.connect with
  | .error _ => store
  | .ok _ =>
    match env.writeErr with
    | some _ => store
    | none =>
      upsert (type ++ "_" ++ key)
        ⟨data, env.now, env.now + cacheDurationMs⟩ store

/-! ## Business operations (`TwitterHelper`)

Business payloads (tweets, timeline items, raw platform profiles) are
opaque to this core (the spec's stated non-goal), so they are modelled as
`String` values produced by the platform oracle; the helper's pure
per-item projections on them are structure plumbing that no claim
inspects. -/

/-- `TwitterHelper.THIRTY_MINUTES_MS`. -/
def THIRTY_MINUTES_MS : Nat := 30 * 60 * 1000

/-- JavaScript `a || b` for a possibly-absent string (absent and `""` are
falsy). -/
def jsOr (o : Option String) (d : String) : String :=
  match o with
  | none => d
  | some s => if s == "" then d else s

/-- JavaScript truthiness of a possibly-absent string. -/
def jsTruthy (o : Option String) : Bool :=
  match o with
  | none => false
  | some s => s != ""

/-- JavaScript `String.prototype.replace` with a string pattern: replace
the first occurrence only. -/
def replaceFirstAux : List Char → List Char → List Char → List Char
  | [], _, _ => []
  | c :: rest, pat, repl =>
    if pat.isPrefixOf (c :: rest) then repl ++ (c :: rest).drop pat.length
    else c :: replaceFirstAux rest pat repl

/-- `s.replace(pat, repl)` on strings (first occurrence only). -/
def jsReplaceFirst (s pat repl : String) : String :=
  ⟨replaceFirstAux s.data pat.data repl.data⟩

/-- The operation result every `TwitterHelper` method produces: either a
business value or the `{ status: 500, error: … }` object its `catch`
builds. -/
inductive Resp (α : Type) where
  | ok (v : α)
  | err500 (error : String)
deriving Repr, DecidableEq

/-- A raw platform user profile, with the fields the helper reads
(optional fields model properties that may be `undefined`). -/
structure UserProfile where
  userId : String
  name : Option String
  biography : Option String
  followersCount : Option Nat
  followingCount : Option Nat
  tweetsCount : Option Nat
  isVerified : Option Bool
  isPrivate : Option Bool
  joined : Option String
  location : Option String
  website : Option String
deriving Repr, DecidableEq

/-- The profile object built by `TwitterHelper.getProfile`. -/
structure Profile where
  id : String
  username : String
  screenName : String
  bio : String
  cookies : List Cookie
deriving Repr, DecidableEq

/-- The profile object built by `TwitterHelper.getTargetProfile`. -/
structure TargetProfile where
  id : String
  username : String
  screenName : String
  bio : String
  followersCount : Option Nat
  followingCount : Option Nat
  tweetsCount : Option Nat
  isVerified : Option Bool
  isPrivate : Option Bool
  joined : Option String
  location : String
  website : String
deriving Repr, DecidableEq

/-- A search result: the tweet list plus the pagination cursor the
platform returns (tweets are opaque payloads). -/
structure SearchResult where
  tweets : List String
  next : Option String
deriving Repr, DecidableEq

/-- Outcome of `Promise.race([fetchSearchTweets …, timeout])`:
the fetch resolved (possibly to a nullish value), the fetch rejected, or
the 15-second timer resolved first. -/
inductive RaceOutcome where
  | fetched (r : Option SearchResult)
  | fetchThrew (e : String)
  | timedOut
deriving Repr, DecidableEq

/-- The timeout budget of the search race, in milliseconds. -/
def SEARCH_TIMEOUT_MS : Nat := 15000

/-- The value the timeout arm of the race resolves to after
`SEARCH_TIMEOUT_MS`: `{ tweets: [] }`. -/
def searchTimeoutFallback : SearchResult :=
  { tweets := [], next := none }

/-- The parsed response body of a send-tweet call, as far as `sendTweet`
inspects it: the created tweet is present; or it is absent and
`body.errors[0].message` exists; or it is absent and reading
`body.errors[0].message` throws a TypeError (whose runtime message is
carried). -/
inductive SendBody where
  | success (t : String)
  | failureWithErrors (first : String)
  | failureNoErrors (tyErr : String)
deriving Repr, DecidableEq

/-- What `sendTweet` returns on success: a plain retweet confirmation or
the created tweet payload. -/
inductive SendOut where
  | retweeted
  | posted (t : String)
deriving Repr, DecidableEq

/-- A poll option object (`{ label }`). -/
structure PollOption where
  label : String
deriving Repr, DecidableEq

/-- `options.map(label => ({ label }))` in `sendTweetWithPoll`. -/
def mkPollOptions (options : List String) : List PollOption :=
  options.map (fun label => ⟨label⟩)

/-- A raw profile yielded by the `getFollowing` generator. -/
structure FollowProfile where
  userId : String
  username : String
  name : String
  biography : Option String
  followersCount : Option Nat
  followingCount : Option Nat
  isVerified : Option Bool
  avatar : Option String
deriving Repr, DecidableEq

/-- The entry `getFollowing` pushes for each yielded profile. -/
structure FollowEntry where
  id : String
  username : String
  name : String
  bio : String
  followersCount : Nat
  followingCount : Nat
  isVerified : Bool
  profileImageUrl : Option String
deriving Repr, DecidableEq

/-- The per-profile projection of `getFollowing` (`|| 0` / `|| false` /
`|| ''` defaults). -/
def formatFollowing (p : FollowProfile) : FollowEntry :=
  { id := p.userId, username := p.username, name := p.name
    bio := jsOr p.biography ""
    followersCount := p.followersCount.getD 0
    followingCount := p.followingCount.getD 0
    isVerified := p.isVerified.getD false
    profileImageUrl := p.avatar }

/-- The per-item projection of `fetchHomeTimeline` on an opaque timeline
item (pure field plumbing on payloads this core does not interpret; in
particular it is length-preserving under `map`). -/
def formatTimelineItem (t : String) : String := t

/-- Oracle for the external collaborators of one `TwitterHelper`
operation: the cache backend, the outcome of `getClient` (handle id or
thrown message), and the platform business calls, each fallible. -/
structure HelperEnv where
  cache : CacheEnv
  clientResult : Except String Nat
  getProfileOf : String → Except String UserProfile
  clientCookies : Except String (List Cookie)
  getTweetResult : Except String String
  userTweetsResult : Except String (Option (List String))
  timelineResult : Except String (List String)
  race : RaceOutcome
  retweetResult : Except String Unit
  sendBody : Except String SendBody
  sendPollResult : List PollOption → Nat → Except String String
  followingResult : Except String (List FollowProfile)

/-- `TwitterHelper.getProfile`: in-memory profile map, then cache, then
authenticated fetch; every thrown step becomes a status-500 object with
the `Failed to fetch profile:` prefix. -/
def getProfile (env : HelperEnv) (profilesMem : List (String × Profile))
    (store : CacheStore Profile) (username : String) :
    Resp Profile × List (String × Profile) × CacheStore Profile :=
  match profilesMem.lookup username with
  | some p => (.ok p, profilesMem, store)
  | none =>
    match (getCachedData env.cache store username "profile" DEFAULT_CACHE_MS).1 with
    | some p => (.ok p, upsert username p profilesMem, store)
    | none =>
      match env.clientResult with
      | .error e => (.err500 ("Failed to fetch profile: " ++ e), profilesMem, store)
      | .ok _ =>
        match env.getProfileOf username with
        | .error e => (.err500 ("Failed to fetch profile: " ++ e), profilesMem, store)
        | .ok up =>
          match env.clientCookies with
          | .error e => (.err500 ("Failed to fetch profile: " ++ e), profilesMem, store)
          | .ok cks =>
            let profile : Profile :=
              { id := up.userId, username := username
                screenName := jsOr up.name username
                bio := jsOr up.biography "", cookies := cks }
            (.ok profile, upsert username profile profilesMem,
             setCachedData env.cache store username "profile" profile DEFAULT_CACHE_MS)

/-- `TwitterHelper.getTargetProfile`: cache, then authenticated fetch of
the `@`-stripped username; thrown steps become status-500 objects. -/
def getTargetProfile (env : HelperEnv) (store : CacheStore TargetProfile)
    (targetUsername : String) : Resp TargetProfile × CacheStore TargetProfile :=
  match (getCachedData env.cache store targetUsername "target_profile" DEFAULT_CACHE_MS).1 with
  | some p => (.ok p, store)
  | none =>
    match env.clientResult with
    | .error e => (.err500 ("Failed to fetch target profile: " ++ e), store)
    | .ok _ =>
      match env.getProfileOf (jsReplaceFirst targetUsername "@" "") with
      | .error e => (.err500 ("Failed to fetch target profile: " ++ e), store)
      | .ok up =>
        let profile : TargetProfile :=
          { id := up.userId, username := targetUsername
            screenName := jsOr up.name targetUsername
            bio := jsOr up.biography ""
            followersCount := up.followersCount
            followingCount := up.followingCount
            tweetsCount := up.tweetsCount
            isVerified := up.isVerified
            isPrivate := up.isPrivate
            joined := up.joined
            location := jsOr up.location ""
            website := jsOr up.website "" }
        (.ok profile,
         setCachedData env.cache store targetUsername "target_profile" profile DEFAULT_CACHE_MS)

/-- `TwitterHelper.getTweet`: authenticated fetch of one tweet (the
circular-reference-stripping JSON round trip is a pure transformation on
the opaque payload); thrown steps become status-500 objects. -/
def getTweet (env : HelperEnv) : Resp String :=
  match env.clientResult with
  | .error e => .err500 ("Failed to fetch tweet: " ++ e)
  | .ok _ =>
    match env.getTweetResult with
    | .error e => .err500 ("Failed to fetch tweet: " ++ e)
    | .ok t => .ok t

/-- `TwitterHelper.getUserTweets`: optional 30-minute cache, fetch, cache
write only for a truthy non-empty tweet list. -/
def getUserTweets (env : HelperEnv) (store : CacheStore (List String))
    (userId : String) (useCache : Bool) :
    Resp (Option (List String)) × CacheStore (List String) :=
  match (if useCache
         then (getCachedData env.cache store userId "user_tweets" THIRTY_MINUTES_MS).1
         else none) with
  | some ts => (.ok (some ts), store)
  | none =>
    match env.clientResult with
    | .error e => (.err500 ("Failed to fetch user tweets: " ++ e), store)
    | .ok _ =>
      match env.userTweetsResult with
      | .error e => (.err500 ("Failed to fetch user tweets: " ++ e), store)
      | .ok none => (.ok none, store)
      | .ok (some tweets) =>
        if useCache && tweets.length > 0 then
          (.ok (some tweets),
           setCachedData env.cache store userId "user_tweets" tweets THIRTY_MINUTES_MS)
        else (.ok (some tweets), store)

/-- `TwitterHelper.fetchHomeTimeline`: optional 30-minute cache keyed by
identity and timeline kind, fetch-and-format, cache write only for a
non-empty formatted list. -/
def fetchHomeTimeline (env : HelperEnv) (store : CacheStore (List String))
    (username : String) (following useCache : Bool) :
    Resp (List String) × CacheStore (List String) :=
  let cacheKey :=
    username ++ "_" ++ (if following then "following" else "home") ++ "_timeline"
  match (if useCache
         then (getCachedData env.cache store cacheKey "timeline" THIRTY_MINUTES_MS).1
         else none) with
  | some tl => (.ok tl, store)
  | none =>
    match env.clientResult with
    | .error e => (.err500 ("Failed to fetch home timeline: " ++ e), store)
    | .ok _ =>
      match env.timelineResult with
      | .error e => (.err500 ("Failed to fetch home timeline: " ++ e), store)
      | .ok raw =>
        let formattedTimeline := raw.map formatTimelineItem
        if useCache && formattedTimeline.length > 0 then
          (.ok formattedTimeline,
           setCachedData env.cache store cacheKey "timeline" formattedTimeline THIRTY_MINUTES_MS)
        else (.ok formattedTimeline, store)

/-- Observable outcome of one `searchTweets` call: the response, the
final cache store, and whether the Cache Store was read / written. -/
structure SearchOut where
  resp : Resp SearchResult
  store : CacheStore SearchResult
  didCacheRead : Bool
  didCacheWrite : Bool
deriving DecidableEq

/-- `TwitterHelper.searchTweets`: the cache is consulted only for initial
(cursor-less) searches; the platform search races a `SEARCH_TIMEOUT_MS`
timer whose arm resolves to `{ tweets: [] }`; the cache is written only
for an initial search with a truthy result carrying a non-empty tweet
list; thrown steps become status-500 objects. -/
def searchTweets (env : HelperEnv) (store : CacheStore SearchResult)
    (query : String) (maxTweets : Nat) (searchMode : Nat)
    (cursor : Option String) (useCache : Bool) : SearchOut :=
  let cacheKey := query ++ "_" ++ toString searchMode ++ "_" ++ toString maxTweets
  let didRead := useCache && cursor.isNone
  match (if didRead
         then (getCachedData env.cache store cacheKey "search" THIRTY_MINUTES_MS).1
         else none) with
  | some r =>
    { resp := .ok r, store := store, didCacheRead := didRead, didCacheWrite := false }
  | none =>
    match env.clientResult with
    | .error e =>
      { resp := .err500 ("Failed to search tweets: " ++ e), store := store
        didCacheRead := didRead, didCacheWrite := false }
    | .ok _ =>
      match env.race with
      | .fetchThrew e =>
        { resp := .err500 ("Failed to search tweets: " ++ e), store := store
          didCacheRead := didRead, didCacheWrite := false }
      | .timedOut =>
        { resp := .ok searchTimeoutFallback, store := store
          didCacheRead := didRead, didCacheWrite := false }
      | .fetched none =>
        { resp := .ok { tweets := [], next := none }, store := store
          didCacheRead := didRead, didCacheWrite := false }
      | .fetched (some r) =>
        if useCache && cursor.isNone && r.tweets.length > 0 then
          { resp := .ok r
            store := setCachedData env.cache store cacheKey "search" r THIRTY_MINUTES_MS
            didCacheRead := didRead, didCacheWrite := true }
        else
          { resp := .ok r, store := store
            didCacheRead := didRead, didCacheWrite := false }

/-- `TwitterHelper.sendTweet`: retweet when a quote id is given without
text, otherwise quote or standard send; a missing created-tweet in the
response body surfaces its first error message (or the TypeError from
reading it) as a status-500 object; its `catch` uses the raw error
message with no prefix. -/
def sendTweet (env : HelperEnv) (text replyToId quoteTweetId : Option String) :
    Resp SendOut :=
  match env.clientResult with
  | .error e => .err500 e
  | .ok _ =>
    if jsTruthy quoteTweetId && !jsTruthy text then
      match env.retweetResult with
      | .error e => .err500 e
      | .ok _ => .ok .retweeted
    else
      match env.sendBody with
      | .error e => .err500 e
      | .ok (.success t) => .ok (.posted t)
      | .ok (.failureWithErrors m) => .err500 m
      | .ok (.failureNoErrors tyErr) => .err500 tyErr

/-- `TwitterHelper.sendTweetWithPoll`: authenticated `sendTweetV2` with
the built poll options; thrown steps become status-500 objects. -/
def sendTweetWithPoll (env : HelperEnv) (text : String)
    (options : List String) (durationMinutes : Nat) : Resp String :=
  match env.clientResult with
  | .error e => .err500 ("Failed to send tweet with poll: " ++ e)
  | .ok _ =>
    match env.sendPollResult (mkPollOptions options) durationMinutes with
    | .error e => .err500 ("Failed to send tweet with poll: " ++ e)
    | .ok t => .ok t

/-- `TwitterHelper.getFollowing`: cache with the default horizon, then
authenticated generator iteration collecting formatted entries, then an
unconditional cache write of the collected list. -/
def getFollowing (env : HelperEnv) (store : CacheStore (List FollowEntry))
    (userId : String) : Resp (List FollowEntry) × CacheStore (List FollowEntry) :=
  match (getCachedData env.cache store userId "following" DEFAULT_CACHE_MS).1 with
  | some fs => (.ok fs, store)
  | none =>
    match env.clientResult with
    | .error e => (.err500 ("Failed to fetch following users: " ++ e), store)
    | .ok _ =>
      match env.followingResult with
      | .error e => (.err500 ("Failed to fetch following users: " ++ e), store)
      | .ok profiles =>
        let following := profiles.map formatFollowing
        (.ok following,
         setCachedData env.cache store userId "following" following DEFAULT_CACHE_MS)

/-! ## Concrete fixtures (used by witnesses and counterexamples) -/

/-- A cookie scoped to the deprecated `x.com` alias. -/
def cookieX : Cookie :=
  { key := "auth_token", value := "v1", domain := "api.x.com", path := "/"
    secure := true, httpOnly := true, sameSite := none }

/-- A cookie on an unrelated domain. -/
def cookieOther : Cookie :=
  { key := "sid", value := "v2", domain := "a.example", path := "/"
    secure := false, httpOnly := false, sameSite := some "Strict" }

/-- A one-cookie jar. -/
def jarX : List Cookie := [cookieX]

/-- Fresh state: nothing registered, nothing cached, empty store. -/
def emptyState : ClientState :=
  { instances := [], cookiesMem := [], mongoStore := [], nextId := 5 }

/-- State with a Session Handle (id 42) registered for `alice`. -/
def regState : ClientState := { emptyState with instances := [("alice", 42)] }

/-- State with an in-memory jar for `alice` and an empty Session Store. -/
def memState : ClientState := { emptyState with cookiesMem := [("alice", jarX)] }

/-- Credentials without a supplied jar. -/
def credsPlain : Credentials :=
  { username := "alice", password := "pw", email := none
    twoFactorSecret := none, cookies := none }

/-- Credentials carrying the supplied jar `jarX`. -/
def credsJar : Credentials := { credsPlain with cookies := some jarX }

/-- Baseline oracle: every probe reports not-logged-in, the store works,
and Fresh Login throws a plain-text error. -/
def envBase : Env :=
  { probeInstance := .ok false
    applyCookies := fun _ => .ok ()
    probeCookies := fun _ => .ok false
    mongoConnect := .ok ()
    mongoFindErr := none
    mongoWriteErr := none
    loginResult := .error ⟨"nope", .notJson⟩
    probeAfterLogin := .ok false
    getCookiesResult := .ok []
    now := 7 }

/-- Oracle whose existing-instance probe passes. -/
def envTier1 : Env := { envBase with probeInstance := .ok true }

/-- Oracle whose jar probe passes (supplied/in-memory/persisted jars are
accepted). -/
def envTier2 : Env := { envBase with probeCookies := fun _ => .ok true }

/-- Oracle where the jar probe passes but the Session Store write throws,
and a subsequent Fresh Login fails with a structured error body. -/
def envWriteFail : Env :=
  { envTier2 with
    mongoWriteErr := some ⟨"db down", .notJson⟩
    loginResult := .error ⟨"body", .jsonWithErrors ["Bad credentials"]⟩
    probeAfterLogin := .ok true }

/-- Oracle where every tier misses and Fresh Login throws a structured
error body `{errors:[{message:"Bad credentials"}]}`. -/
def envLoginJson : Env :=
  { envBase with loginResult := .error ⟨"body", .jsonWithErrors ["Bad credentials"]⟩ }

/-- A working cache backend at time 5000. -/
def cacheEnvOk : CacheEnv :=
  { connect := .ok (), findErr := none, writeErr := none, now := 5000 }

/-- A cache store with one entry written at time 1000. -/
def cacheStoreW : CacheStore Nat := [("profile_alice", ⟨7, 1000, 44200000⟩)]

/-- An unreachable cache backend. -/
def cacheEnvDown : CacheEnv :=
  { connect := .error "MongoDB down", findErr := none, writeErr := none, now := 0 }

/-- Helper oracle: cache backend down and authentication exhausted. -/
def helperEnvAuthFail : HelperEnv :=
  { cache := cacheEnvDown
    clientResult := .error "Failed to authenticate: nope"
    getProfileOf := fun _ => .error "unreachable"
    clientCookies := .error "unreachable"
    getTweetResult := .error "unreachable"
    userTweetsResult := .error "unreachable"
    timelineResult := .error "unreachable"
    race := .fetchThrew "unreachable"
    retweetResult := .error "unreachable"
    sendBody := .error "unreachable"
    sendPollResult := fun _ _ => .error "unreachable"
    followingResult := .error "unreachable" }

/-- Helper oracle: authentication succeeds but every platform business
call throws. -/
def helperEnvOpFail : HelperEnv :=
  { helperEnvAuthFail with
    clientResult := .ok 1
    getProfileOf := fun _ => .error "profile boom"
    getTweetResult := .error "tweet boom"
    userTweetsResult := .error "tweets boom"
    timelineResult := .error "timeline boom"
    race := .fetchThrew "search boom"
    sendBody := .error "send boom"
    sendPollResult := fun _ _ => .error "poll boom"
    followingResult := .error "following boom" }

/-- Helper oracle: authentication succeeds, the cache works, and the
platform search resolves with one tweet and a next cursor. -/
def helperEnvSearch : HelperEnv :=
  { helperEnvAuthFail with
    clientResult := .ok 1
    cache := cacheEnvOk
    race := .fetched (some { tweets := ["t1"], next := some "nextcur" }) }

/-- Helper oracle: authentication succeeds but the search race hits the
timeout arm. -/
def helperEnvTimeout : HelperEnv := { helperEnvSearch with race := .timedOut }

/-! ## Theorems -/

theorem twitter_domain_no_alias : strIncludes ".twitter.com" "x.com" = false := by
  decide

theorem strIncludes_empty_left : strIncludes "" "x.com" = false := by
  decide

theorem normalizedDomain_rewriteCookie (c : Cookie) :
    normalizedDomain (rewriteCookie c) = normalizedDomain c := by
  unfold rewriteCookie normalizedDomain
  by_cases h : (c.domain != "" && strIncludes c.domain "x.com") = true
  · simp only [h, if_true]
    simp [twitter_domain_no_alias]
  · simp only [Bool.not_eq_true] at h
    simp [h]

theorem cookieString_rewriteCookie (c : Cookie) :
    cookieString (rewriteCookie c) = cookieString c := by
  unfold cookieString cookieStringOfDomain
  rw [normalizedDomain_rewriteCookie]
  rfl

theorem lookup_filter_ne {β : Type} {k k' : String} (h : k' ≠ k)
    (l : List (String × β)) :
    (l.filter (fun p => p.1 != k)).lookup k' = l.lookup k' := by
  induction l with
  | nil => rfl
  | cons p rest ih =>
    obtain ⟨a, b⟩ := p
    by_cases hp : a = k
    · subst hp
      have h2 : (k' == a) = false := by simp [h]
      simp [List.filter_cons, List.lookup_cons, h2, ih]
    · by_cases hk : k' = a
      · subst hk
        simp [List.filter_cons, hp, List.lookup_cons]
      · have h2 : (k' == a) = false := by simp [hk]
        simp [List.filter_cons, hp, List.lookup_cons, h2, ih]

theorem lookup_upsert {β : Type} (k k' : String) (v : β)
    (l : List (String × β)) :
    (upsert k v l).lookup k' = if k' = k then some v else l.lookup k' := by
  unfold upsert
  by_cases h : k' = k
  · simp [List.lookup_cons, h]
  · have h2 : (k' == k) = false := by simp [h]
    simp [List.lookup_cons, h2, h, lookup_filter_ne h l]

/-- C5: every cookie whose domain contains the deprecated alias `x.com`
has its domain rewritten to `.twitter.com` in the string submitted by
`setCookiesOnClient`, all other domains pass through unchanged, and the
rewrite is idempotent (re-applying it to an already-rewritten jar changes
none of the submitted strings). -/
theorem domain_normalization (c : Cookie) (jar : List Cookie) :
    (strIncludes c.domain "x.com" = true → normalizedDomain c = ".twitter.com") ∧
    (strIncludes c.domain "x.com" = false → normalizedDomain c = c.domain) ∧
    setCookiesOnClient jar =
      jar.map (fun d => cookieStringOfDomain d (normalizedDomain d)) ∧
    setCookiesOnClient (jar.map rewriteCookie) = setCookiesOnClient jar := by
  refine ⟨?_, ?_, rfl, ?_⟩
  · intro h
    have hne : c.domain ≠ "" := by
      intro h0
      rw [h0] at h
      exact absurd h (by decide)
    simp [normalizedDomain, h, hne]
  · intro h
    simp [normalizedDomain, h]
  · unfold setCookiesOnClient
    rw [List.map_map]
    exact List.map_congr_left fun d _ => cookieString_rewriteCookie d

/-- Witness for C5 at a concrete jar: the aliased domain is rewritten,
the unrelated domain is untouched. -/
theorem domain_normalization_witness :
    strIncludes cookieX.domain "x.com" = true ∧
    normalizedDomain cookieX = ".twitter.com" ∧
    strIncludes cookieOther.domain "x.com" = false ∧
    normalizedDomain cookieOther = cookieOther.domain :=
  ⟨by decide, (domain_normalization cookieX []).1 (by decide),
   by decide, (domain_normalization cookieOther []).2.1 (by decide)⟩

/-- C1: when the Instance Registry holds a handle for the identity and
its login-state probe succeeds, `getClient` returns exactly that handle,
never invokes Fresh Login, constructs no new session context, and leaves
the state untouched. -/
theorem existing_instance_short_circuit (env : Env) (st : ClientState)
    (creds : Credentials) (h : Nat)
    (hreg : st.instances.lookup creds.username = some h)
    (hprobe : env.probeInstance = .ok true) :
    (getClient env st creds).result = .ok h ∧
    (getClient env st creds).loginInvoked = false ∧
    (getClient env st creds).scrapersCreated = 0 ∧
    (getClient env st creds).state = st := by
  have hex : tryExistingClient env st creds.username = true := by
    simp [tryExistingClient, hreg, hprobe]
  simp [getClient, hex, hreg]

/-- Witness for C1: with handle 42 registered for `alice` and a passing
probe, `getClient` returns handle 42 untouched. -/
theorem existing_instance_short_circuit_witness :
    (getClient envTier1 regState credsPlain).result = .ok 42 ∧
    (getClient envTier1 regState credsPlain).loginInvoked = false ∧
    (getClient envTier1 regState credsPlain).scrapersCreated = 0 ∧
    (getClient envTier1 regState credsPlain).state = regState :=
  existing_instance_short_circuit envTier1 regState credsPlain 42
    (by decide) rfl

/-- C2 counterexample: the caller-supplied jar passes the login probe and
the Existing Instance tier missed, yet — because the Session Store write
throws — the Supplied Cookies tier soft-fails and Fresh Login IS invoked,
so the claim's unconditional guarantee is false on the code. -/
theorem supplied_cookies_counterexample :
    envWriteFail.probeCookies (setCookiesOnClient jarX) = .ok true ∧
    tryExistingClient envWriteFail emptyState "alice" = false ∧
    (getClient envWriteFail emptyState credsJar).loginInvoked = true ∧
    (getClient envWriteFail emptyState credsJar).result =
      .error "Failed to authenticate: Bad credentials" := by
  refine ⟨rfl, rfl, ?_, ?_⟩ <;> decide

/-- C2 (amended): when the credentials carry a jar, the Existing Instance
tier missed, applying the jar succeeds, the jar passes the login-state
probe, and the Session Store write succeeds, then resolution succeeds at
the Supplied Cookies tier — the jar is persisted with a fresh timestamp,
cached in memory, the new handle is registered, and Fresh Login is never
invoked. -/
theorem supplied_cookies_tier_success (env : Env) (st : ClientState)
    (creds : Credentials) (jar : List Cookie)
    (hjar : creds.cookies = some jar)
    (hmiss : tryExistingClient env st creds.username = false)
    (happly : env.applyCookies (setCookiesOnClient jar) = .ok ())
    (hprobe : env.probeCookies (setCookiesOnClient jar) = .ok true)
    (hconn : env.mongoConnect = .ok ())
    (hwrite : env.mongoWriteErr = none) :
    (getClient env st creds).result = .ok st.nextId ∧
    (getClient env st creds).loginInvoked = false ∧
    (getClient env st creds).state.mongoStore.lookup creds.username =
      some ⟨jar, env.now⟩ ∧
    (getClient env st creds).state.cookiesMem.lookup creds.username = some jar ∧
    (getClient env st creds).state.instances.lookup creds.username =
      some st.nextId := by
  simp [getClient, hmiss, hjar, tryPassedCookies, happly, hprobe, saveCookies,
        hconn, hwrite, saveClientAndReturn, lookup_upsert]

/-- Witness for C2 (amended): with a working store and a probe-valid
supplied jar, resolution succeeds at the Supplied Cookies tier. -/
theorem supplied_cookies_tier_success_witness :
    (getClient envTier2 emptyState credsJar).result = .ok 5 ∧
    (getClient envTier2 emptyState credsJar).loginInvoked = false ∧
    (getClient envTier2 emptyState credsJar).state.mongoStore.lookup "alice" =
      some ⟨jarX, 7⟩ ∧
    (getClient envTier2 emptyState credsJar).state.cookiesMem.lookup "alice" =
      some jarX ∧
    (getClient envTier2 emptyState credsJar).state.instances.lookup "alice" =
      some 5 :=
  supplied_cookies_tier_success envTier2 emptyState credsJar jarX
    rfl rfl rfl rfl rfl rfl

/-- C3 counterexample: the in-memory tier validates a jar via the
login-state probe and resolution succeeds there, yet nothing is written
to the Session Store — its record for the identity stays absent, with no
fresh timestamp — so "whenever any tier validates, the jar is upserted"
is false on the code. -/
theorem inmemory_tier_no_store_write :
    envTier2.probeCookies (setCookiesOnClient jarX) = .ok true ∧
    memState.cookiesMem.lookup "alice" = some jarX ∧
    (getClient envTier2 memState credsPlain).result = .ok 5 ∧
    (getClient envTier2 memState credsPlain).state.mongoStore = [] := by
  refine ⟨rfl, by decide, ?_, ?_⟩ <;> decide

theorem saveCookies_ok {env : Env} {st : ClientState} {u : String}
    {jar : List Cookie} {st' : ClientState}
    (h : saveCookies env st u jar = .ok st') :
    st' = { st with mongoStore := upsert u ⟨jar, env.now⟩ st.mongoStore } := by
  unfold saveCookies at h
  split at h
  · cases h
  · split at h
    · cases h
    · cases h
      rfl

theorem tryPassedCookies_false {env : Env} {st : ClientState} {u : String}
    {jar : List Cookie}
    (h : (tryPassedCookies env st u jar).1 = false) :
    (tryPassedCookies env st u jar).2 = st := by
  unfold tryPassedCookies at *
  split at h
  · rfl
  · split at h
    · rfl
    · rfl
    · split at h
      · rfl
      · cases h

theorem tryPassedCookies_true {env : Env} {st : ClientState} {u : String}
    {jar : List Cookie}
    (h : (tryPassedCookies env st u jar).1 = true) :
    (tryPassedCookies env st u jar).2.mongoStore =
      upsert u ⟨jar, env.now⟩ st.mongoStore ∧
    env.probeCookies (setCookiesOnClient jar) = .ok true := by
  unfold tryPassedCookies at *
  split at h
  · cases h
  · split at h
    · cases h
    · cases h
    · next hprobe =>
      split at h
      · cases h
      · next st' hsave =>
        rw [saveCookies_ok hsave]
        exact ⟨rfl, hprobe⟩

theorem tryMongoCookies_mongoStore (env : Env) (st : ClientState)
    (u : String) :
    (tryMongoCookies env st u).2.mongoStore = st.mongoStore := by
  unfold tryMongoCookies
  split
  · rfl
  · split
    · rfl
    · split
      · rfl
      · split
        · rfl
        · split <;> rfl

theorem tryFreshLogin_ok {env : Env} {st : ClientState} {u : String}
    {b : Bool} {st' : ClientState}
    (h : tryFreshLogin env st u = .ok (b, st')) :
    (b = false → st' = st) ∧
    (b = true → ∃ jar, st'.mongoStore = upsert u ⟨jar, env.now⟩ st.mongoStore ∧
      env.probeAfterLogin = .ok true) := by
  unfold tryFreshLogin at h
  split at h
  · cases h
  · split at h
    · cases h
    · cases h
      exact ⟨fun _ => rfl, fun hb => by cases hb⟩
    · next hprobe =>
      split at h
      · cases h
      · next newCookies hget =>
        split at h
        · cases h
        · next stW hsave =>
          cases h
          refine ⟨fun hb => by simp at hb, fun _ => ⟨newCookies, ?_, hprobe⟩⟩
          rw [saveCookies_ok hsave]

/-- Splitting an upsert's effect on a lookup at an arbitrary key. -/
theorem lookup_upsert_cases {β : Type} (k k' : String) (v : β)
    (l : List (String × β)) :
    (upsert k v l).lookup k' = l.lookup k' ∨
    (k' = k ∧ (upsert k v l).lookup k' = some v) := by
  by_cases h : k' = k
  · right
    exact ⟨h, by rw [lookup_upsert]; simp [h]⟩
  · left
    rw [lookup_upsert]
    simp [h]

/-- C3 (amended): only probe-validated jars reach the Session Store —
any change `getClient` makes to the store is an upsert, at the caller's
identity, of a jar that passed its login-state probe (the jar probe for
the Supplied Cookies tier, the post-login probe for Fresh Login), stamped
with the current time; a jar that failed its probe is never written, and
the in-memory / persisted tiers validate without writing. -/
theorem session_store_validated_writes_only (env : Env) (st : ClientState)
    (creds : Credentials) (u' : String) :
    (getClient env st creds).state.mongoStore.lookup u' =
      st.mongoStore.lookup u' ∨
    (u' = creds.username ∧ ∃ jar,
      (getClient env st creds).state.mongoStore.lookup u' =
        some ⟨jar, env.now⟩ ∧
      (env.probeCookies (setCookiesOnClient jar) = .ok true ∨
       env.probeAfterLogin = .ok true)) := by
  by_cases hex : tryExistingClient env st creds.username = true
  · left
    simp [getClient, hex]
  · have hex' : tryExistingClient env st creds.username = false := by
      simpa using hex
    rcases hcks : creds.cookies with _ | jar
    · by_cases hmem :
        tryInMemoryCookies env { st with nextId := st.nextId + 1 } creds.username = true
      · left
        simp [getClient, hex', hcks, hmem, saveClientAndReturn]
      · have hmem' :
          tryInMemoryCookies env { st with nextId := st.nextId + 1 } creds.username = false := by
          simpa using hmem
        by_cases hm :
          (tryMongoCookies env { st with nextId := st.nextId + 1 } creds.username).1 = true
        · left
          simp [getClient, hex', hcks, hmem', hm, saveClientAndReturn,
                tryMongoCookies_mongoStore]
        · have hm' :
            (tryMongoCookies env { st with nextId := st.nextId + 1 } creds.username).1 = false := by
            simpa using hm
          cases hfl : tryFreshLogin env
              (tryMongoCookies env { st with nextId := st.nextId + 1 } creds.username).2
              creds.username with
          | error e =>
            left
            simp [getClient, hex', hcks, hmem', hm', hfl, tryMongoCookies_mongoStore]
          | ok pair =>
            obtain ⟨b, st'⟩ := pair
            obtain ⟨hfalse, htrue⟩ := tryFreshLogin_ok hfl
            cases b with
            | false =>
              left
              simp [getClient, hex', hcks, hmem', hm', hfl, hfalse rfl,
                    tryMongoCookies_mongoStore]
            | true =>
              obtain ⟨jar2, hup, hprobe⟩ := htrue rfl
              have hmr := tryMongoCookies_mongoStore env
                { st with nextId := st.nextId + 1 } creds.username
              rcases lookup_upsert_cases creds.username u'
                  (⟨jar2, env.now⟩ : SessionRecord)
                  ((tryMongoCookies env { st with nextId := st.nextId + 1 }
                    creds.username).2.mongoStore) with hc | ⟨he, hv⟩
              · left
                simp [getClient, hex', hcks, hmem', hm', hfl, saveClientAndReturn]
                rw [hup, hc, hmr]
              · right
                refine ⟨he, jar2, ?_, Or.inr hprobe⟩
                simp [getClient, hex', hcks, hmem', hm', hfl, saveClientAndReturn]
                rw [hup, hv]
    · by_cases hp :
        (tryPassedCookies env { st with nextId := st.nextId + 1 } creds.username jar).1 = true
      · obtain ⟨hup, hprobe⟩ := tryPassedCookies_true hp
        rcases lookup_upsert_cases creds.username u'
            (⟨jar, env.now⟩ : SessionRecord)
            ({ st with nextId := st.nextId + 1 } : ClientState).mongoStore
            with hc | ⟨he, hv⟩
        · left
          simp [getClient, hex', hcks, hp, saveClientAndReturn]
          rw [hup, hc]
        · right
          refine ⟨he, jar, ?_, Or.inl hprobe⟩
          simp [getClient, hex', hcks, hp, saveClientAndReturn]
          rw [hup, hv]
      · have hp' :
          (tryPassedCookies env { st with nextId := st.nextId + 1 } creds.username jar).1 = false := by
          simpa using hp
        have hps := tryPassedCookies_false hp'
        by_cases hmem :
          tryInMemoryCookies env { st with nextId := st.nextId + 1 } creds.username = true
        · left
          simp [getClient, hex', hcks, hp', hps, hmem, saveClientAndReturn]
        · have hmem' :
            tryInMemoryCookies env { st with nextId := st.nextId + 1 } creds.username = false := by
            simpa using hmem
          by_cases hm :
            (tryMongoCookies env { st with nextId := st.nextId + 1 } creds.username).1 = true
          · left
            simp [getClient, hex', hcks, hp', hps, hmem', hm, saveClientAndReturn,
                  tryMongoCookies_mongoStore]
          · have hm' :
              (tryMongoCookies env { st with nextId := st.nextId + 1 } creds.username).1 = false := by
              simpa using hm
            cases hfl : tryFreshLogin env
                (tryMongoCookies env { st with nextId := st.nextId + 1 } creds.username).2
                creds.username with
            | error e =>
              left
              simp [getClient, hex', hcks, hp', hps, hmem', hm', hfl,
                    tryMongoCookies_mongoStore]
            | ok pair =>
              obtain ⟨b, st'⟩ := pair
              obtain ⟨hfalse, htrue⟩ := tryFreshLogin_ok hfl
              cases b with
              | false =>
                left
                simp [getClient, hex', hcks, hp', hps, hmem', hm', hfl, hfalse rfl,
                      tryMongoCookies_mongoStore]
              | true =>
                obtain ⟨jar2, hup, hprobe⟩ := htrue rfl
                have hmr := tryMongoCookies_mongoStore env
                  { st with nextId := st.nextId + 1 } creds.username
                rcases lookup_upsert_cases creds.username u'
                    (⟨jar2, env.now⟩ : SessionRecord)
                    ((tryMongoCookies env { st with nextId := st.nextId + 1 }
                      creds.username).2.mongoStore) with hc | ⟨he, hv⟩
                · left
                  simp [getClient, hex', hcks, hp', hps, hmem', hm', hfl,
                        saveClientAndReturn]
                  rw [hup, hc, hmr]
                · right
                  refine ⟨he, jar2, ?_, Or.inr hprobe⟩
                  simp [getClient, hex', hcks, hp', hps, hmem', hm', hfl,
                        saveClientAndReturn]
                  rw [hup, hv]

/-- C7: a thrown step or failed probe inside tiers 1–4 never propagates
to the caller — whenever `getClient` fails, the failure is the terminal
Authentication Error (prefix `Failed to authenticate:`) and the cascade
had fallen all the way through to the Fresh Login tier. -/
theorem only_terminal_auth_error_surfaces (env : Env) (st : ClientState)
    (creds : Credentials) (e : String)
    (he : (getClient env st creds).result = .error e) :
    (∃ m, e = "Failed to authenticate: " ++ m) ∧
    (getClient env st creds).loginInvoked = true := by
  by_cases hex : tryExistingClient env st creds.username = true
  · simp [getClient, hex] at he
  · have hex' : tryExistingClient env st creds.username = false := by
      simpa using hex
    rcases hcks : creds.cookies with _ | jar
    · by_cases hmem :
        tryInMemoryCookies env { st with nextId := st.nextId + 1 } creds.username = true
      · simp [getClient, hex', hcks, hmem] at he
      · have hmem' :
          tryInMemoryCookies env { st with nextId := st.nextId + 1 } creds.username = false := by
          simpa using hmem
        by_cases hm :
          (tryMongoCookies env { st with nextId := st.nextId + 1 } creds.username).1 = true
        · simp [getClient, hex', hcks, hmem', hm] at he
        · have hm' :
            (tryMongoCookies env { st with nextId := st.nextId + 1 } creds.username).1 = false := by
            simpa using hm
          cases hfl : tryFreshLogin env
              (tryMongoCookies env { st with nextId := st.nextId + 1 } creds.username).2
              creds.username with
          | error e0 =>
            simp [getClient, hex', hcks, hmem', hm', hfl] at he
            exact ⟨⟨authFailureMessage (some e0), he.symm⟩,
                   by simp [getClient, hex', hcks, hmem', hm', hfl]⟩
          | ok pair =>
            obtain ⟨b, st'⟩ := pair
            cases b with
            | false =>
              simp [getClient, hex', hcks, hmem', hm', hfl] at he
              exact ⟨⟨authFailureMessage none, he.symm⟩,
                     by simp [getClient, hex', hcks, hmem', hm', hfl]⟩
            | true =>
              simp [getClient, hex', hcks, hmem', hm', hfl] at he
    · by_cases hp :
        (tryPassedCookies env { st with nextId := st.nextId + 1 } creds.username jar).1 = true
      · simp [getClient, hex', hcks, hp] at he
      · have hp' :
          (tryPassedCookies env { st with nextId := st.nextId + 1 } creds.username jar).1 = false := by
          simpa using hp
        by_cases hmem :
          tryInMemoryCookies env
            (tryPassedCookies env { st with nextId := st.nextId + 1 } creds.username jar).2
            creds.username = true
        · simp [getClient, hex', hcks, hp', hmem] at he
        · have hmem' :
            tryInMemoryCookies env
              (tryPassedCookies env { st with nextId := st.nextId + 1 } creds.username jar).2
              creds.username = false := by
            simpa using hmem
          by_cases hm :
            (tryMongoCookies env
              (tryPassedCookies env { st with nextId := st.nextId + 1 } creds.username jar).2
              creds.username).1 = true
          · simp [getClient, hex', hcks, hp', hmem', hm] at he
          · have hm' :
              (tryMongoCookies env
                (tryPassedCookies env { st with nextId := st.nextId + 1 } creds.username jar).2
                creds.username).1 = false := by
              simpa using hm
            cases hfl : tryFreshLogin env
                (tryMongoCookies env
                  (tryPassedCookies env { st with nextId := st.nextId + 1 } creds.username jar).2
                  creds.username).2
                creds.username with
            | error e0 =>
              simp [getClient, hex', hcks, hp', hmem', hm', hfl] at he
              exact ⟨⟨authFailureMessage (some e0), he.symm⟩,
                     by simp [getClient, hex', hcks, hp', hmem', hm', hfl]⟩
            | ok pair =>
              obtain ⟨b, st'⟩ := pair
              cases b with
              | false =>
                simp [getClient, hex', hcks, hp', hmem', hm', hfl] at he
                exact ⟨⟨authFailureMessage none, he.symm⟩,
                       by simp [getClient, hex', hcks, hp', hmem', hm', hfl]⟩
              | true =>
                simp [getClient, hex', hcks, hp', hmem', hm', hfl] at he

/-- Witness for C7: with every tier failing, the surfaced error carries
the terminal prefix and Fresh Login was reached. -/
theorem only_terminal_auth_error_surfaces_witness :
    (∃ m, "Failed to authenticate: nope" = "Failed to authenticate: " ++ m) ∧
    (getClient envBase emptyState credsPlain).loginInvoked = true :=
  only_terminal_auth_error_surfaces envBase emptyState credsPlain
    "Failed to authenticate: nope" (by decide)

/-- C6: when tiers 1–4 all miss and Fresh Login throws an error whose
message is a JSON body with a non-empty `errors` list, `getClient` fails
with the first nested message verbatim as the failure reason; when the
(non-empty) message is not such a structured body, it fails with the raw
error text. -/
theorem terminal_error_extraction (env : Env) (st : ClientState)
    (creds : Credentials) (e : ErrMsg)
    (hmiss : tryExistingClient env st creds.username = false)
    (hcks : creds.cookies = none)
    (hmem : st.cookiesMem.lookup creds.username = none)
    (hstore : st.mongoStore.lookup creds.username = none)
    (hlogin : env.loginResult = .error e)
    (htext : e.text ≠ "") :
    (∀ m ms, e.parsed = .jsonWithErrors (m :: ms) →
      (getClient env st creds).result =
        .error ("Failed to authenticate: " ++ m)) ∧
    ((∀ m ms, e.parsed ≠ .jsonWithErrors (m :: ms)) →
      (getClient env st creds).result =
        .error ("Failed to authenticate: " ++ e.text)) := by
  have hmem' :
      tryInMemoryCookies env { st with nextId := st.nextId + 1 } creds.username = false := by
    simp [tryInMemoryCookies, hmem]
  have hmongo : tryMongoCookies env { st with nextId := st.nextId + 1 } creds.username =
      (false, { st with nextId := st.nextId + 1 }) := by
    unfold tryMongoCookies
    cases hc : env.mongoConnect with
    | error e0 => rfl
    | ok _ =>
      cases hf : env.mongoFindErr with
      | some e0 => rfl
      | none => simp [hstore]
  have hfl : tryFreshLogin env { st with nextId := st.nextId + 1 } creds.username =
      .error e := by
    simp [tryFreshLogin, hlogin]
  have hres : (getClient env st creds).result =
      .error ("Failed to authenticate: " ++ authFailureMessage (some e)) := by
    simp [getClient, hmiss, hcks, hmem', hmongo, hfl]
  have htb : (e.text == "") = false := by simp [htext]
  constructor
  · intro m ms hp
    rw [hres]
    simp [authFailureMessage, htb, extractErrorMessage, hp]
  · intro hnp
    rw [hres]
    cases hpe : e.parsed with
    | notJson => simp [authFailureMessage, htb, extractErrorMessage, hpe]
    | jsonNoErrors => simp [authFailureMessage, htb, extractErrorMessage, hpe]
    | jsonWithErrors msgs =>
      cases msgs with
      | nil => simp [authFailureMessage, htb, extractErrorMessage, hpe]
      | cons m ms => exact absurd hpe (hnp m ms)

/-- Witness for C6: a structured `{errors:[{message:"Bad credentials"}]}`
login failure surfaces `Bad credentials` verbatim as the reason. -/
theorem terminal_error_extraction_witness :
    (getClient envLoginJson emptyState credsPlain).result =
      .error "Failed to authenticate: Bad credentials" :=
  (terminal_error_extraction envLoginJson emptyState credsPlain
      ⟨"body", .jsonWithErrors ["Bad credentials"]⟩
      rfl rfl rfl rfl rfl (by decide)).1 "Bad credentials" [] rfl

theorem getCachedData_preserves {α : Type} (env : CacheEnv)
    (store : CacheStore α) (key type ttl) :
    (getCachedData env store key type ttl).2 = store := by
  unfold getCachedData
  split
  · rfl
  · split
    · rfl
    · split
      · rfl
      · split <;> rfl

/-- C4: with the backend reachable, `getCachedData` is absent exactly
when no record exists under the composite key or the record's age exceeds
the supplied TTL; the read never deletes (the store is unchanged); and a
`getCachedData` immediately after a successful `setCachedData` for the
same key and type returns the stored payload unchanged. -/
theorem cache_ttl_semantics {α : Type} (env : CacheEnv)
    (store : CacheStore α) (key type : String) (ttl : Nat)
    (hconn : env.connect = .ok ()) (hfind : env.findErr = none) :
    ((getCachedData env store key type ttl).1 = none ↔
      (List.lookup (type ++ "_" ++ key) store = none ∨
       ∃ entry, List.lookup (type ++ "_" ++ key) store = some entry ∧
         env.now - entry.timestamp > ttl)) ∧
    (getCachedData env store key type ttl).2 = store ∧
    (env.writeErr = none → ∀ d : α,
      (getCachedData env (setCachedData env store key type d ttl)
        key type ttl).1 = some d) := by
  refine ⟨?_, getCachedData_preserves env store key type ttl, ?_⟩
  · unfold getCachedData
    rw [hconn, hfind]
    cases hlook : List.lookup (type ++ "_" ++ key) store with
    | none => simp
    | some entry =>
      dsimp only
      by_cases hage : env.now - entry.timestamp > ttl
      · rw [if_pos hage]
        exact iff_of_true rfl (Or.inr ⟨entry, rfl, hage⟩)
      · rw [if_neg hage]
        refine iff_of_false (by simp) ?_
        rintro (h | ⟨e, he, hh⟩)
        · exact Option.noConfusion h
        · injection he with h2
          subst h2
          exact hage hh
  · intro hw d
    have hset : setCachedData env store key type d ttl =
        upsert (type ++ "_" ++ key) ⟨d, env.now, env.now + ttl⟩ store := by
      simp [setCachedData, hconn, hw]
    rw [hset]
    unfold getCachedData
    rw [hconn, hfind, lookup_upsert]
    simp

/-- Witness for C4 at a concrete store: the entry written at time 1000 is
stale at time 5000 under a 1000 ms TTL, the read leaves the store intact,
and a fresh write is immediately readable. -/
theorem cache_ttl_semantics_witness :
    ((getCachedData cacheEnvOk cacheStoreW "alice" "profile" 1000).1 = none ↔
      (List.lookup ("profile" ++ "_" ++ "alice") cacheStoreW = none ∨
       ∃ entry, List.lookup ("profile" ++ "_" ++ "alice") cacheStoreW = some entry ∧
         cacheEnvOk.now - entry.timestamp > 1000)) ∧
    (getCachedData cacheEnvOk cacheStoreW "alice" "profile" 1000).2 = cacheStoreW ∧
    (cacheEnvOk.writeErr = none → ∀ d : Nat,
      (getCachedData cacheEnvOk
        (setCachedData cacheEnvOk cacheStoreW "alice" "profile" d 1000)
        "alice" "profile" 1000).1 = some d) :=
  cache_ttl_semantics cacheEnvOk cacheStoreW "alice" "profile" 1000 rfl rfl

theorem searchTweets_didCacheRead (env : HelperEnv)
    (store : CacheStore SearchResult) (query : String)
    (maxTweets searchMode : Nat) (cursor : Option String) (useCache : Bool) :
    (searchTweets env store query maxTweets searchMode cursor useCache).didCacheRead =
      (useCache && cursor.isNone) := by
  simp only [searchTweets]
  split
  · rfl
  · cases env.clientResult with
    | error e => rfl
    | ok h =>
      cases env.race with
      | fetchThrew e => rfl
      | timedOut => rfl
      | fetched r =>
        cases r with
        | none => rfl
        | some rr =>
          dsimp only
          split <;> rfl

/-- C8: a paginated search (cursor present) neither reads nor writes the
Cache Store regardless of the cache flag; a cache read happens only on a
cursor-less call with caching enabled; a cache write additionally
requires the fetch to have resolved with a non-empty tweet list. -/
theorem paginated_search_bypasses_cache (env : HelperEnv)
    (store : CacheStore SearchResult) (query : String)
    (maxTweets searchMode : Nat) (cursor : Option String) (useCache : Bool) :
    (∀ c, cursor = some c →
      (searchTweets env store query maxTweets searchMode cursor useCache).didCacheRead = false ∧
      (searchTweets env store query maxTweets searchMode cursor useCache).didCacheWrite = false ∧
      (searchTweets env store query maxTweets searchMode cursor useCache).store = store) ∧
    ((searchTweets env store query maxTweets searchMode cursor useCache).didCacheRead = true →
      cursor = none ∧ useCache = true) ∧
    ((searchTweets env store query maxTweets searchMode cursor useCache).didCacheWrite = true →
      cursor = none ∧ useCache = true ∧
      ∃ r, env.race = .fetched (some r) ∧ 0 < r.tweets.length) := by
  refine ⟨?_, ?_, ?_⟩
  · rintro c rfl
    cases hcr : env.clientResult with
    | error e => simp [searchTweets, hcr]
    | ok h =>
      cases hrace : env.race with
      | fetchThrew e => simp [searchTweets, hcr, hrace]
      | timedOut => simp [searchTweets, hcr, hrace]
      | fetched r =>
        cases r with
        | none => simp [searchTweets, hcr, hrace]
        | some rr => simp [searchTweets, hcr, hrace]
  · intro hr
    rw [searchTweets_didCacheRead] at hr
    rcases cursor with _ | c
    · cases useCache
      · simp at hr
      · exact ⟨rfl, rfl⟩
    · simp at hr
  · intro hw
    rcases cursor with _ | c
    · cases useCache
      · exfalso
        cases hcr : env.clientResult with
        | error e => simp [searchTweets, hcr] at hw
        | ok h =>
          cases hrace : env.race with
          | fetchThrew e => simp [searchTweets, hcr, hrace] at hw
          | timedOut => simp [searchTweets, hcr, hrace] at hw
          | fetched r =>
            cases r with
            | none => simp [searchTweets, hcr, hrace] at hw
            | some rr => simp [searchTweets, hcr, hrace] at hw
      · cases hg : (getCachedData env.cache store
            (query ++ "_" ++ toString searchMode ++ "_" ++ toString maxTweets)
            "search" THIRTY_MINUTES_MS).1 with
        | some r => simp [searchTweets, hg] at hw
        | none =>
          cases hcr : env.clientResult with
          | error e => simp [searchTweets, hg, hcr] at hw
          | ok h =>
            cases hrace : env.race with
            | fetchThrew e => simp [searchTweets, hg, hcr, hrace] at hw
            | timedOut => simp [searchTweets, hg, hcr, hrace] at hw
            | fetched r =>
              cases r with
              | none => simp [searchTweets, hg, hcr, hrace] at hw
              | some rr =>
                by_cases hlen : 0 < rr.tweets.length
                · exact ⟨rfl, rfl, rr, rfl, hlen⟩
                · simp [searchTweets, hg, hcr, hrace, hlen] at hw
    · exfalso
      cases hcr : env.clientResult with
      | error e => simp [searchTweets, hcr] at hw
      | ok h =>
        cases hrace : env.race with
        | fetchThrew e => simp [searchTweets, hcr, hrace] at hw
        | timedOut => simp [searchTweets, hcr, hrace] at hw
        | fetched r =>
          cases r with
          | none => simp [searchTweets, hcr, hrace] at hw
          | some rr => simp [searchTweets, hcr, hrace] at hw

/-- Witness for C8: with a cursor present, the flags and store are
untouched even though caching is enabled and the fetch succeeded. -/
theorem paginated_search_bypasses_cache_witness :
    (searchTweets helperEnvSearch [] "q" 10 1 (some "cur") true).didCacheRead = false ∧
    (searchTweets helperEnvSearch [] "q" 10 1 (some "cur") true).didCacheWrite = false ∧
    (searchTweets helperEnvSearch [] "q" 10 1 (some "cur") true).store = [] :=
  (paginated_search_bypasses_cache helperEnvSearch [] "q" 10 1 (some "cur") true).1
    "cur" rfl

/-- C9: when the platform search does not resolve within the race budget
(the timeout arm wins), `searchTweets` returns the empty-result value
`{ tweets: [] }` rather than an error, and the budget is 15000 ms. -/
theorem search_timeout_returns_empty (env : HelperEnv)
    (store : CacheStore SearchResult) (query : String)
    (maxTweets searchMode : Nat) (cursor : Option String) (useCache : Bool)
    (h : Nat) (hclient : env.clientResult = .ok h)
    (hrace : env.race = .timedOut)
    (hmiss : (getCachedData env.cache store
      (query ++ "_" ++ toString searchMode ++ "_" ++ toString maxTweets)
      "search" THIRTY_MINUTES_MS).1 = none) :
    (searchTweets env store query maxTweets searchMode cursor useCache).resp =
      .ok searchTimeoutFallback ∧
    searchTimeoutFallback = { tweets := [], next := none } ∧
    (searchTweets env store query maxTweets searchMode cursor useCache).store = store ∧
    SEARCH_TIMEOUT_MS = 15000 := by
  refine ⟨?_, rfl, ?_, rfl⟩ <;>
    cases hd : (useCache && cursor.isNone) <;>
      simp [searchTweets, hd, hmiss, hclient, hrace]

/-- Witness for C9: a concrete timed-out search returns `{ tweets: [] }`. -/
theorem search_timeout_returns_empty_witness :
    (searchTweets helperEnvTimeout [] "q" 10 1 none true).resp =
      .ok searchTimeoutFallback ∧
    searchTimeoutFallback = { tweets := [], next := none } ∧
    (searchTweets helperEnvTimeout [] "q" 10 1 none true).store =
      ([] : CacheStore SearchResult) ∧
    SEARCH_TIMEOUT_MS = 15000 :=
  search_timeout_returns_empty helperEnvTimeout [] "q" 10 1 none true
    1 rfl rfl rfl

/-- C10: no public `TwitterHelper` operation throws to its caller — when
an internal step fails, both for authentication exhaustion (`getClient`
throws) and for a thrown platform business call, every one of the nine
operations returns a `{ status: 500, error: … }` object carrying the
failure message instead of propagating the exception (stated on the
failure path: in-memory and durable caches missing). -/
theorem helper_ops_return_500_on_failure
    (env env2 : HelperEnv) (profilesMem : List (String × Profile))
    (storeP : CacheStore Profile) (storeT : CacheStore TargetProfile)
    (storeU storeTL : CacheStore (List String))
    (storeS : CacheStore SearchResult) (storeF : CacheStore (List FollowEntry))
    (username target userId query ptext : String)
    (maxTweets searchMode dur : Nat) (cursor : Option String)
    (useCache following : Bool) (options : List String)
    (text replyToId : Option String)
    (e ce ce2 : String) (hdl : Nat)
    (pe te ue tle re se pye fe : String)
    (hconn : env.cache.connect = .error ce)
    (hclient : env.clientResult = .error e)
    (hmemP : profilesMem.lookup username = none)
    (hconn2 : env2.cache.connect = .error ce2)
    (hok : env2.clientResult = .ok hdl)
    (hpe : ∀ s, env2.getProfileOf s = .error pe)
    (hte : env2.getTweetResult = .error te)
    (hue : env2.userTweetsResult = .error ue)
    (htle : env2.timelineResult = .error tle)
    (hre : env2.race = .fetchThrew re)
    (hse : env2.sendBody = .error se)
    (hpye : ∀ o d, env2.sendPollResult o d = .error pye)
    (hfe : env2.followingResult = .error fe) :
    ((getProfile env profilesMem storeP username).1 =
       .err500 ("Failed to fetch profile: " ++ e) ∧
     (getTargetProfile env storeT target).1 =
       .err500 ("Failed to fetch target profile: " ++ e) ∧
     getTweet env = .err500 ("Failed to fetch tweet: " ++ e) ∧
     (getUserTweets env storeU userId useCache).1 =
       .err500 ("Failed to fetch user tweets: " ++ e) ∧
     (fetchHomeTimeline env storeTL username following useCache).1 =
       .err500 ("Failed to fetch home timeline: " ++ e) ∧
     (searchTweets env storeS query maxTweets searchMode cursor useCache).resp =
       .err500 ("Failed to search tweets: " ++ e) ∧
     sendTweet env text replyToId none = .err500 e ∧
     sendTweetWithPoll env ptext options dur =
       .err500 ("Failed to send tweet with poll: " ++ e) ∧
     (getFollowing env storeF userId).1 =
       .err500 ("Failed to fetch following users: " ++ e)) ∧
    ((getProfile env2 profilesMem storeP username).1 =
       .err500 ("Failed to fetch profile: " ++ pe) ∧
     (getTargetProfile env2 storeT target).1 =
       .err500 ("Failed to fetch target profile: " ++ pe) ∧
     getTweet env2 = .err500 ("Failed to fetch tweet: " ++ te) ∧
     (getUserTweets env2 storeU userId useCache).1 =
       .err500 ("Failed to fetch user tweets: " ++ ue) ∧
     (fetchHomeTimeline env2 storeTL username following useCache).1 =
       .err500 ("Failed to fetch home timeline: " ++ tle) ∧
     (searchTweets env2 storeS query maxTweets searchMode cursor useCache).resp =
       .err500 ("Failed to search tweets: " ++ re) ∧
     sendTweet env2 text replyToId none = .err500 se ∧
     sendTweetWithPoll env2 ptext options dur =
       .err500 ("Failed to send tweet with poll: " ++ pye) ∧
     (getFollowing env2 storeF userId).1 =
       .err500 ("Failed to fetch following users: " ++ fe)) := by
  refine ⟨⟨?_, ?_, ?_, ?_, ?_, ?_, ?_, ?_, ?_⟩, ⟨?_, ?_, ?_, ?_, ?_, ?_, ?_, ?_, ?_⟩⟩
  · simp [getProfile, hmemP, getCachedData, hconn, hclient]
  · simp [getTargetProfile, getCachedData, hconn, hclient]
  · simp [getTweet, hclient]
  · simp [getUserTweets, getCachedData, hconn, hclient]
  · simp [fetchHomeTimeline, getCachedData, hconn, hclient]
  · simp [searchTweets, getCachedData, hconn, hclient]
  · simp [sendTweet, hclient]
  · simp [sendTweetWithPoll, hclient]
  · simp [getFollowing, getCachedData, hconn, hclient]
  · simp [getProfile, hmemP, getCachedData, hconn2, hok, hpe]
  · simp [getTargetProfile, getCachedData, hconn2, hok, hpe]
  · simp [getTweet, hok, hte]
  · simp [getUserTweets, getCachedData, hconn2, hok, hue]
  · simp [fetchHomeTimeline, getCachedData, hconn2, hok, htle]
  · simp [searchTweets, getCachedData, hconn2, hok, hre]
  · simp [sendTweet, hok, hse, jsTruthy]
  · simp [sendTweetWithPoll, hok, hpye]
  · simp [getFollowing, getCachedData, hconn2, hok, hfe]

/-- Witness for C10 at the concrete oracles: authentication exhaustion
and platform failures each surface as status-500 objects on all nine
operations. -/
theorem helper_ops_return_500_on_failure_witness :
    ((getProfile helperEnvAuthFail [] [] "alice").1 =
       .err500 "Failed to fetch profile: Failed to authenticate: nope" ∧
     (getTargetProfile helperEnvAuthFail [] "@bob").1 =
       .err500 "Failed to fetch target profile: Failed to authenticate: nope" ∧
     getTweet helperEnvAuthFail =
       .err500 "Failed to fetch tweet: Failed to authenticate: nope" ∧
     (getUserTweets helperEnvAuthFail [] "u1" true).1 =
       .err500 "Failed to fetch user tweets: Failed to authenticate: nope" ∧
     (fetchHomeTimeline helperEnvAuthFail [] "alice" false true).1 =
       .err500 "Failed to fetch home timeline: Failed to authenticate: nope" ∧
     (searchTweets helperEnvAuthFail [] "q" 10 1 none true).resp =
       .err500 "Failed to search tweets: Failed to authenticate: nope" ∧
     sendTweet helperEnvAuthFail (some "t") none none =
       .err500 "Failed to authenticate: nope" ∧
     sendTweetWithPoll helperEnvAuthFail "hi" ["a", "b"] 120 =
       .err500 "Failed to send tweet with poll: Failed to authenticate: nope" ∧
     (getFollowing helperEnvAuthFail [] "u1").1 =
       .err500 "Failed to fetch following users: Failed to authenticate: nope") ∧
    ((getProfile helperEnvOpFail [] [] "alice").1 =
       .err500 "Failed to fetch profile: profile boom" ∧
     (getTargetProfile helperEnvOpFail [] "@bob").1 =
       .err500 "Failed to fetch target profile: profile boom" ∧
     getTweet helperEnvOpFail = .err500 "Failed to fetch tweet: tweet boom" ∧
     (getUserTweets helperEnvOpFail [] "u1" true).1 =
       .err500 "Failed to fetch user tweets: tweets boom" ∧
     (fetchHomeTimeline helperEnvOpFail [] "alice" false true).1 =
       .err500 "Failed to fetch home timeline: timeline boom" ∧
     (searchTweets helperEnvOpFail [] "q" 10 1 none true).resp =
       .err500 "Failed to search tweets: search boom" ∧
     sendTweet helperEnvOpFail (some "t") none none = .err500 "send boom" ∧
     sendTweetWithPoll helperEnvOpFail "hi" ["a", "b"] 120 =
       .err500 "Failed to send tweet with poll: poll boom" ∧
     (getFollowing helperEnvOpFail [] "u1").1 =
       .err500 "Failed to fetch following users: following boom") :=
  helper_ops_return_500_on_failure helperEnvAuthFail helperEnvOpFail
    [] [] [] [] [] [] [] "alice" "@bob" "u1" "q" "hi" 10 1 120 none true false
    ["a", "b"] (some "t") none
    "Failed to authenticate: nope" "MongoDB down" "MongoDB down" 1
    "profile boom" "tweet boom" "tweets boom" "timeline boom" "search boom"
    "send boom" "poll boom" "following boom"
    rfl rfl rfl rfl rfl (fun _ => rfl) rfl rfl rfl rfl rfl
    (fun _ _ => rfl) rfl

end XApi
